import Mathlib

/-!
Verification of the user read endpoints of `src/users/views.py`.

The file embeds the two annotated querysets built by
`UserMeViewSet.get_object` and `UserViewSet.get_queryset`:

  .annotate(
      vps_count=Count("vps"),
      workload=Case(
          When(vps_count__range=[1, 3], then=Value("EASY")),
          When(vps_count__range=[3, 8], then=Value("MEDIUM")),
          When(vps_count__gte=9, then=Value("HARD")),
          default=Value("VERY_EASY")),
      applications_deployed=Count("application", distinct=True))

The ORM compiles the two aggregates into a single SQL query:

  SELECT users.id, COUNT(vps.id), CASE ... END, COUNT(DISTINCT application.id)
  FROM users
  LEFT OUTER JOIN vps ON vps.user_id = users.id
  LEFT OUTER JOIN application ON application.user_id = users.id
  GROUP BY users.id

so both reverse foreign-key relations are joined into the same row set.
The embedding models that row set (`joinRows`) and the two `COUNT`
aggregates over it, and the `CASE` expression as a function on the
integers the SQL engine evaluates it over.
-/

namespace Practice1

/-- A stored user row. Only the primary key matters to the claims;
profile columns are opaque to every annotation considered here. -/
structure User where
  id : Nat
deriving DecidableEq, Repr

/-- A virtual-resource (vps) row: primary key and owning user. -/
structure Vps where
  id : Nat
  user_id : Nat
deriving DecidableEq, Repr

/-- An application row: primary key and owning user. -/
structure Application where
  id : Nat
  user_id : Nat
deriving DecidableEq, Repr

/-- The database state visible to the read endpoints. -/
structure DB where
  users : List User
  vps : List Vps
  applications : List Application
deriving DecidableEq, Repr

/-- The vps rows related to a user (the reverse FK relation `"vps"`). -/
def vpsOf (db : DB) (u : User) : List Vps :=
  db.vps.filter (fun v => v.user_id = u.id)

/-- The application rows related to a user (the reverse FK relation
`"application"`). -/
def appsOf (db : DB) (u : User) : List Application :=
  db.applications.filter (fun a => a.user_id = u.id)

/-- LEFT OUTER JOIN row images for one relation: one row per related
record, or a single NULL row when there is none. -/
def leftRows {α : Type} (xs : List α) : List (Option α) :=
  if xs.isEmpty then [none] else xs.map some

/-- The joined row set the single compiled query produces for one user:
`users LEFT JOIN vps LEFT JOIN application`, restricted to that user's
group. Each component is `none` on a NULL-padded row. -/
def joinRows (db : DB) (u : User) : List (Option Vps × Option Application) :=
  (leftRows (vpsOf db u)).flatMap (fun v => (leftRows (appsOf db u)).map (fun a => (v, a)))

/-- `COUNT(vps.id)` over a row set: counts the rows whose vps column is
not NULL (this is what `Count("vps")` without `distinct` compiles to). -/
def sqlCountVps (rows : List (Option Vps × Option Application)) : Nat :=
  (rows.filterMap (fun r => r.1)).length

/-- `COUNT(DISTINCT application.id)` over a row set (what
`Count("application", distinct=True)` compiles to). -/
def sqlCountDistinctApp (rows : List (Option Vps × Option Application)) : Nat :=
  ((rows.filterMap (fun r => r.2)).map (fun a => a.id)).dedup.length

/-- The value of the `vps_count=Count("vps")` annotation for one user,
as the SQL integer the engine hands to the `CASE` expression. -/
def vpsCountAgg (db : DB) (u : User) : Int :=
  (sqlCountVps (joinRows db u) : Int)

/-- The `Case` expression of `UserMeViewSet.get_object`
(src/users/views.py lines 59-64): SQL `CASE WHEN` evaluated top to
bottom, first matching branch wins; `__range=[a, b]` is the inclusive
`BETWEEN a AND b`; `default` is the `ELSE` branch. -/
def workloadCaseMe (n : Int) : String :=
  if 1 ≤ n ∧ n ≤ 3 then "EASY"
  else if 3 ≤ n ∧ n ≤ 8 then "MEDIUM"
  else if 9 ≤ n then "HARD"
  else "VERY_EASY"

/-- The `Case` expression of `UserViewSet.get_queryset`
(src/users/views.py lines 84-89), transcribed from its own call site. -/
def workloadCaseList (n : Int) : String :=
  if 1 ≤ n ∧ n ≤ 3 then "EASY"
  else if 3 ≤ n ∧ n ≤ 8 then "MEDIUM"
  else if 9 ≤ n then "HARD"
  else "VERY_EASY"

/-- One user row of the annotated queryset: stored id plus the three
derived, per-read columns. -/
structure AnnotatedUser where
  id : Nat
  vps_count : Int
  workload : String
  applications_deployed : Nat
deriving DecidableEq, Repr

/-- The annotations `UserMeViewSet.get_object` attaches to one user row. -/
def annotateMe (db : DB) (u : User) : AnnotatedUser :=
  { id := u.id
    vps_count := vpsCountAgg db u
    workload := workloadCaseMe (vpsCountAgg db u)
    applications_deployed := sqlCountDistinctApp (joinRows db u) }

/-- The annotations `UserViewSet.get_queryset` attaches to one user row. -/
def annotateList (db : DB) (u : User) : AnnotatedUser :=
  { id := u.id
    vps_count := vpsCountAgg db u
    workload := workloadCaseList (vpsCountAgg db u)
    applications_deployed := sqlCountDistinctApp (joinRows db u) }

/-- `UserMeViewSet.get_object`: filter the user table to the requesting
user's id, annotate, and take `.first()` (`none` when no row matches). -/
def get_object (request_user_id : Nat) (db : DB) : Option AnnotatedUser :=
  ((db.users.filter (fun u => u.id = request_user_id)).map (annotateMe db)).head?

/-- `UserViewSet.get_queryset`: every user row, annotated. -/
def get_queryset (db : DB) : List AnnotatedUser :=
  db.users.map (annotateList db)

/-- Evaluating the self-profile read. The queryset compiles to a single
SELECT with no INSERT, UPDATE or DELETE, so the read returns the
response row together with the database state, unchanged. -/
def userMeRead (request_user_id : Nat) (db : DB) : Option AnnotatedUser × DB :=
  (get_object request_user_id db, db)

/-- Evaluating the user-listing read; a SELECT only, as above. -/
def userListRead (db : DB) : List AnnotatedUser × DB :=
  (get_queryset db, db)

/-- Modelled from the spec (section 4.1): the ordered rule set of the
workload classifier, evaluated first match wins, written from the
spec's table for comparison with the code's `Case` expression. -/
def specClassify (n : Nat) : String :=
  if 1 ≤ n ∧ n ≤ 3 then "EASY"
  else if 3 ≤ n ∧ n ≤ 8 then "MEDIUM"
  else if 9 ≤ n then "HARD"
  else "VERY_EASY"

/-- The four workload tiers of the spec's section 3 invariant. -/
def workloadLabels : List String :=
  ["VERY_EASY", "EASY", "MEDIUM", "HARD"]

/-- C1: for every non-negative integer n the classifier returns exactly
the label of the spec's ordered first-match-wins rule set: EASY for
1 ≤ n ≤ 3 (so n = 3 is EASY, not MEDIUM), MEDIUM for 4 ≤ n ≤ 8, HARD
for n ≥ 9, VERY_EASY for n = 0. -/
theorem workload_matches_spec (n : Nat) :
    workloadCaseMe (n : Int) = specClassify n ∧
    (1 ≤ n ∧ n ≤ 3 → workloadCaseMe (n : Int) = "EASY") ∧
    (4 ≤ n ∧ n ≤ 8 → workloadCaseMe (n : Int) = "MEDIUM") ∧
    (9 ≤ n → workloadCaseMe (n : Int) = "HARD") ∧
    (n = 0 → workloadCaseMe (n : Int) = "VERY_EASY") := by
  unfold workloadCaseMe specClassify
  refine ⟨?_, ?_, ?_, ?_, ?_⟩ <;>
    (try intro h) <;> split_ifs <;> first | rfl | omega

/-- Witness for C1: the overlap boundary n = 3 resolves to EASY. -/
theorem workload_matches_spec_witness : workloadCaseMe ((3 : Nat) : Int) = "EASY" :=
  (workload_matches_spec 3).2.1 ⟨by decide, by decide⟩

/-- A join of a nonempty relation, or the single NULL-padded row, is
never the empty row set. -/
lemma leftRows_ne_nil {α : Type} (xs : List α) : leftRows xs ≠ [] := by
  unfold leftRows
  split <;> simp_all [List.isEmpty_iff]

/-- Projecting the application column out of the pair rows spawned by
one vps row recovers exactly the user's application rows. -/
lemma filterMap_snd_pairRows (v : Option Vps) (as : List Application) :
    ((leftRows as).map (fun a => (v, a))).filterMap (fun r => r.2) = as := by
  cases as with
  | nil => rfl
  | cons a t =>
    show (((a :: t).map some).map (fun x => (v, x))).filterMap (fun r => r.2) = a :: t
    rw [List.map_map, List.filterMap_map]
    exact List.filterMap_some _

/-- Projecting the application column out of the full joined row set
yields one copy of the user's application rows per vps-side row. -/
lemma filterMap_snd_flat (vs : List (Option Vps)) (as : List Application) :
    (vs.flatMap (fun v => (leftRows as).map (fun a => (v, a)))).filterMap (fun r => r.2)
      = vs.flatMap (fun _ => as) := by
  induction vs with
  | nil => rfl
  | cons v t ih =>
    simp only [List.flatMap_cons, List.filterMap_append, ih, filterMap_snd_pairRows]

/-- Constant flatMap over a nonempty index list has the same elements as
its body. -/
lemma mem_flatMap_const {α β : Type} {vs : List α} (h : vs ≠ []) (as : List β) (x : β) :
    x ∈ vs.flatMap (fun _ => as) ↔ x ∈ as := by
  rw [List.mem_flatMap]
  constructor
  · rintro ⟨a, _, hx⟩
    exact hx
  · intro hx
    obtain ⟨a, ha⟩ := List.exists_mem_of_ne_nil vs h
    exact ⟨a, ha, hx⟩

/-- Two lists with the same elements have deduplications of the same
length. -/
lemma dedup_length_eq_of_mem_iff {α : Type} [DecidableEq α] (l1 l2 : List α)
    (h : ∀ x, x ∈ l1 ↔ x ∈ l2) : l1.dedup.length = l2.dedup.length := by
  have h1 : l1.toFinset = l2.toFinset := by
    ext x
    simp only [List.mem_toFinset]
    exact h x
  rw [← List.card_toFinset, ← List.card_toFinset, h1]

/-- The join duplication does not change the distinct application count:
`COUNT(DISTINCT application.id)` over the joined row set equals the
number of distinct application ids related to the user. -/
lemma sqlCountDistinctApp_joinRows (db : DB) (u : User) :
    sqlCountDistinctApp (joinRows db u)
      = ((appsOf db u).map Application.id).dedup.length := by
  unfold sqlCountDistinctApp joinRows
  rw [filterMap_snd_flat]
  apply dedup_length_eq_of_mem_iff
  intro x
  simp only [List.mem_map]
  constructor
  · rintro ⟨a, ha, rfl⟩
    exact ⟨a, (mem_flatMap_const (leftRows_ne_nil _) _ a).mp ha, rfl⟩
  · rintro ⟨a, ha, rfl⟩
    exact ⟨a, (mem_flatMap_const (leftRows_ne_nil _) _ a).mpr ha, rfl⟩

/-- The classifier's output is always one of the four tiers. -/
lemma workloadCaseMe_mem (m : Int) : workloadCaseMe m ∈ workloadLabels := by
  unfold workloadCaseMe workloadLabels
  split_ifs <;> simp

/-- Same fact for the listing endpoint's copy of the expression. -/
lemma workloadCaseList_mem (m : Int) : workloadCaseList m ∈ workloadLabels := by
  unfold workloadCaseList workloadLabels
  split_ifs <;> simp

/-- A database with one user owning two vps records and three
application records: the input that exposes the aggregate interaction. -/
def dbBug : DB :=
  { users := [⟨1⟩]
    vps := [⟨10, 1⟩, ⟨11, 1⟩]
    applications := [⟨20, 1⟩, ⟨21, 1⟩, ⟨22, 1⟩] }

/-- C2: refuted on the code. The user of `dbBug` has 2 vps records, but
both read endpoints report `vps_count = 6`: `Count("vps")` without
`distinct` counts vps rows of the joined row set, and the LEFT JOIN on
`application` (needed by the other aggregate in the same query)
multiplies them by the 3 application rows. The workload label is then
computed from the inflated 6 (MEDIUM) instead of the true 2 (EASY). -/
theorem vps_count_inflated :
    (dbBug.vps.filter (fun v => v.user_id = 1)).length = 2 ∧
    (get_object 1 dbBug).map AnnotatedUser.vps_count = some 6 ∧
    (get_queryset dbBug).map AnnotatedUser.vps_count = [6] ∧
    (get_object 1 dbBug).map AnnotatedUser.workload = some "MEDIUM" := by
  decide

/-- C3: the classifier is total and single-valued on the non-negative
integers — for every n exactly one of the four labels is its value —
and the workload field of every row either read endpoint can return is
one of the four labels. -/
theorem workload_total_invariant :
    (∀ n : Nat, ∃! l : String, l ∈ workloadLabels ∧ workloadCaseMe (n : Int) = l) ∧
    (∀ (uid : Nat) (db : DB) (r : AnnotatedUser),
        get_object uid db = some r → r.workload ∈ workloadLabels) ∧
    (∀ (db : DB) (r : AnnotatedUser),
        r ∈ get_queryset db → r.workload ∈ workloadLabels) := by
  refine ⟨?_, ?_, ?_⟩
  · intro n
    exact ⟨workloadCaseMe (n : Int), ⟨workloadCaseMe_mem _, rfl⟩, fun y hy => hy.2.symm⟩
  · intro uid db r h
    have hr : r ∈ (db.users.filter (fun u => u.id = uid)).map (annotateMe db) :=
      List.mem_of_mem_head? h
    obtain ⟨u, _, rfl⟩ := List.mem_map.mp hr
    exact workloadCaseMe_mem _
  · intro db r h
    obtain ⟨u, _, rfl⟩ := List.mem_map.mp h
    exact workloadCaseList_mem _

/-- A two-user database with no related records. -/
def db0 : DB :=
  { users := [⟨1⟩, ⟨2⟩]
    vps := []
    applications := [] }

/-- Witness for C3: a concrete profile read's workload label is one of
the four tiers. -/
theorem workload_total_invariant_witness :
    (annotateMe db0 ⟨1⟩).workload ∈ workloadLabels :=
  workload_total_invariant.2.1 1 db0 (annotateMe db0 ⟨1⟩) (by decide)

/-- C4 counterexample: applied to the negative input -1, the `Case`
expression does assign a label — the `default` branch catches it and
yields VERY_EASY — so the classifier does not leave negative input
unlabelled. -/
theorem classify_negative_labeled :
    workloadCaseMe (-1) = "VERY_EASY" ∧ workloadCaseMe (-1) ∈ workloadLabels := by
  decide

/-- C4 amended: negative input never reaches the classifier at the read
endpoints, because its only input is the non-negative aggregate count;
the expression itself does not fail or reject a negative value — every
n < 0 falls through to the default branch and is labelled VERY_EASY. -/
theorem workload_negative_default :
    (∀ n : Int, n < 0 → workloadCaseMe n = "VERY_EASY") ∧
    (∀ (db : DB) (u : User), 0 ≤ vpsCountAgg db u) := by
  constructor
  · intro n hn
    unfold workloadCaseMe
    split_ifs <;> first | rfl | omega
  · intro db u
    exact Int.natCast_nonneg _

/-- Witness for C4's amended claim at n = -5. -/
theorem workload_negative_default_witness :
    workloadCaseMe (-5) = "VERY_EASY" :=
  workload_negative_default.1 (-5) (by decide)

/-- C5: `applications_deployed` equals the number of distinct
application ids related to the user — the join duplication does not
affect the distinct count — and both endpoints compute the same value;
when the application ids are distinct (they are primary keys), it is
exactly the number of the user's application records. -/
theorem applications_deployed_correct (db : DB) (u : User) :
    (annotateMe db u).applications_deployed
        = ((appsOf db u).map Application.id).dedup.length ∧
    (annotateList db u).applications_deployed
        = (annotateMe db u).applications_deployed ∧
    (((appsOf db u).map Application.id).Nodup →
      (annotateMe db u).applications_deployed = (appsOf db u).length) := by
  have key : (annotateMe db u).applications_deployed
      = ((appsOf db u).map Application.id).dedup.length :=
    sqlCountDistinctApp_joinRows db u
  refine ⟨key, rfl, fun h => ?_⟩
  rw [key, List.Nodup.dedup h, List.length_map]

/-- Witness for C5 on `dbBug`: 3 application records with distinct ids,
and `applications_deployed` is 3. -/
theorem applications_deployed_correct_witness :
    ((appsOf dbBug ⟨1⟩).map Application.id).Nodup ∧
    (annotateMe dbBug ⟨1⟩).applications_deployed = (appsOf dbBug ⟨1⟩).length :=
  ⟨by decide, (applications_deployed_correct dbBug ⟨1⟩).2.2 (by decide)⟩

/-- C6: the workload label is a pure function of the count — two reads,
over any two database states and any two users, that produce the same
`vps_count` produce the same label; no other state influences it. -/
theorem workload_pure (db db' : DB) (u u' : User)
    (h : vpsCountAgg db u = vpsCountAgg db' u') :
    (annotateMe db u).workload = (annotateMe db' u').workload := by
  show workloadCaseMe (vpsCountAgg db u) = workloadCaseMe (vpsCountAgg db' u')
  rw [h]

/-- A one-user database with one vps record. -/
def dbA : DB :=
  { users := [⟨1⟩]
    vps := [⟨5, 1⟩]
    applications := [] }

/-- A different one-user database, same vps count for its user. -/
def dbB : DB :=
  { users := [⟨2⟩]
    vps := [⟨7, 2⟩]
    applications := [] }

/-- Witness for C6: two distinct database states with equal counts get
the same label. -/
theorem workload_pure_witness :
    vpsCountAgg dbA ⟨1⟩ = vpsCountAgg dbB ⟨2⟩ ∧
    (annotateMe dbA ⟨1⟩).workload = (annotateMe dbB ⟨2⟩).workload :=
  ⟨by decide, workload_pure dbA dbB ⟨1⟩ ⟨2⟩ (by decide)⟩

/-- C7: both reads are SELECT-only — evaluating the profile read or the
listing read returns the database state unchanged, so the derived
fields are never persisted. -/
theorem reads_leave_db_unchanged (uid : Nat) (db : DB) :
    (userMeRead uid db).2 = db ∧ (userListRead db).2 = db :=
  ⟨rfl, rfl⟩

/-- C8: the `Case` expression of `UserMeViewSet.get_object` and the one
of `UserViewSet.get_queryset` are the same function of the count. -/
theorem case_expressions_equal (n : Int) :
    workloadCaseMe n = workloadCaseList n := rfl

/-- C9: at both call sites the classifier's input is the aggregate
`Count("vps")`, a cardinality and hence non-negative, so the negative
case is unreachable at the read endpoints. -/
theorem classifier_input_nonneg (db : DB) (u : User) :
    0 ≤ vpsCountAgg db u ∧
    (annotateMe db u).workload = workloadCaseMe (vpsCountAgg db u) ∧
    (annotateList db u).workload = workloadCaseList (vpsCountAgg db u) :=
  ⟨Int.natCast_nonneg _, rfl, rfl⟩

/-- C10: a profile read returns either the row whose id is the
requesting user's id, or `none` when no such row exists — never a row
of a different user. -/
theorem get_object_own_record (uid : Nat) (db : DB) :
    (∀ r : AnnotatedUser, get_object uid db = some r → r.id = uid) ∧
    ((∀ u ∈ db.users, u.id ≠ uid) → get_object uid db = none) := by
  constructor
  · intro r h
    have hr : r ∈ (db.users.filter (fun u => u.id = uid)).map (annotateMe db) :=
      List.mem_of_mem_head? h
    obtain ⟨u, hu, rfl⟩ := List.mem_map.mp hr
    exact of_decide_eq_true (List.mem_filter.mp hu).2
  · intro h
    have hnil : db.users.filter (fun u => u.id = uid) = [] :=
      List.filter_eq_nil_iff.mpr (fun u hu => by simpa using h u hu)
    unfold get_object
    rw [hnil]
    rfl

/-- Witness for C10: on `db0`, reading as user 1 returns user 1's row,
and reading as the absent user 3 returns `none`. -/
theorem get_object_own_record_witness :
    (annotateMe db0 ⟨1⟩).id = 1 ∧ get_object 3 db0 = none :=
  ⟨(get_object_own_record 1 db0).1 (annotateMe db0 ⟨1⟩) (by decide),
   (get_object_own_record 3 db0).2 (by decide)⟩

end Practice1
